import Mathlib

/-!
Verification of the Poster Composition Canvas core of the
stage-creatives-FE repository, shallowly embedded in Lean 4.

Coordinates and sizes are modelled as rationals (the source uses JS
numbers; all operations verified here are field-arithmetic operations,
so the rational embedding is exact).  The opaque `effects` payload and
the `data` payload of an asset (typed `any` in the source) are modelled
as `Option String` and `String` respectively: the claims only ever copy
or compare them.
-/

/-- Mirror of the `CanvasAsset` interface of
`src/components/content/PosterCanvas.tsx` (id, src, type tag, geometry,
selection flag, opaque data and optional effects payload). -/
structure CanvasAsset where
  id : String
  src : String
  type : String
  x : ℚ
  y : ℚ
  width : ℚ
  height : ℚ
  selected : Bool
  data : String
  effects : Option String
deriving Repr, DecidableEq

/-- Body hit test used by `handleCanvasClick` and `handleContextMenu`:
the pointer is inside the asset bounding box (inclusive on all edges,
matching the `>=`/`<=` comparisons of the source). -/
def insideAsset (a : CanvasAsset) (px py : ℚ) : Bool :=
  decide (a.x ≤ px) && decide (px ≤ a.x + a.width) &&
  decide (a.y ≤ py) && decide (py ≤ a.y + a.height)

/-- Reverse-order hit test of `handleCanvasClick` / `handleContextMenu`:
iterate from the last (topmost) asset down and return the first asset
whose bounding box contains the click point. -/
def hitTest (assets : List CanvasAsset) (px py : ℚ) : Option CanvasAsset :=
  assets.reverse.find? (fun a => insideAsset a px py)

/-- The selection update both click handlers perform:
`selected: asset.id === clickedAsset?.id` mapped over the whole list
(`clickedId = none` models a click that hit no asset, in which case the
comparison with `undefined` is false for every asset). -/
def applySelection (assets : List CanvasAsset) (clickedId : Option String) :
    List CanvasAsset :=
  assets.map (fun a => { a with selected := decide (clickedId = some a.id) })

/-- `handleCanvasClick` of PosterCanvas.tsx: hit test the click point and
set `selected` on exactly the assets whose id equals the clicked id. -/
def handleCanvasClick (assets : List CanvasAsset) (px py : ℚ) :
    List CanvasAsset :=
  applySelection assets ((hitTest assets px py).map (fun a => a.id))

/-- The selection part of `handleContextMenu` of PosterCanvas.tsx: on a
right click the same selection map runs, but only when the hit test
found an asset; otherwise the list is left untouched. -/
def handleContextMenuSelect (assets : List CanvasAsset) (px py : ℚ) :
    List CanvasAsset :=
  match hitTest assets px py with
  | some c => applySelection assets (some c.id)
  | none => assets

/-- A click-driven selection event: left click or right click at a
canvas point. -/
inductive SelectionEvent where
  | leftClick (px py : ℚ)
  | rightClick (px py : ℚ)
deriving Repr, DecidableEq

/-- Dispatch one selection event to the corresponding handler. -/
def applySelectionEvent (assets : List CanvasAsset) :
    SelectionEvent → List CanvasAsset
  | .leftClick px py => handleCanvasClick assets px py
  | .rightClick px py => handleContextMenuSelect assets px py

/-- Run a sequence of click-driven selection events. -/
def runSelectionEvents (assets : List CanvasAsset)
    (events : List SelectionEvent) : List CanvasAsset :=
  events.foldl applySelectionEvent assets

/-- Number of assets currently marked selected. -/
def selectedCount (assets : List CanvasAsset) : Nat :=
  assets.countP (fun a => a.selected)

theorem countP_key_le_one {α β : Type} [DecidableEq β] (key : α → β) (b : β) :
    ∀ l : List α, (l.map key).Nodup →
      l.countP (fun a => decide (key a = b)) ≤ 1 := by
  intro l
  induction l with
  | nil => intro _; simp
  | cons x xs ih =>
    intro hnd
    rw [List.map_cons, List.nodup_cons] at hnd
    rw [List.countP_cons]
    by_cases hx : key x = b
    · have hzero : xs.countP (fun a => decide (key a = b)) = 0 := by
        rw [List.countP_eq_zero]
        intro a ha
        simp only [decide_eq_true_eq]
        intro hab
        exact hnd.1 (hx ▸ hab ▸ List.mem_map_of_mem key ha)
      simp [hx, hzero]
    · have := ih hnd.2
      simp only [hx, decide_eq_true_eq, if_neg]
      simpa using this

theorem applySelection_map_id (assets : List CanvasAsset)
    (clickedId : Option String) :
    (applySelection assets clickedId).map CanvasAsset.id =
      assets.map CanvasAsset.id := by
  simp [applySelection]

theorem selectedCount_applySelection_le_one (assets : List CanvasAsset)
    (clickedId : Option String)
    (hids : (assets.map CanvasAsset.id).Nodup) :
    selectedCount (applySelection assets clickedId) ≤ 1 := by
  cases clickedId with
  | none =>
    have h0 : selectedCount (applySelection assets none) =
        assets.countP (fun _ => false) := by
      simp only [selectedCount, applySelection, List.countP_map]
      apply List.countP_congr
      intro a _
      simp [Function.comp]
    rw [h0]
    simp
  | some i =>
    have h1 : selectedCount (applySelection assets (some i)) =
        assets.countP (fun a => decide (CanvasAsset.id a = i)) := by
      simp only [selectedCount, applySelection, List.countP_map]
      apply List.countP_congr
      intro a _
      simp [Function.comp, eq_comm]
    rw [h1]
    exact countP_key_le_one CanvasAsset.id i assets hids

/-- Claim C1: single-selection invariant.  Starting from a scene whose
asset ids are pairwise distinct (the documented id-uniqueness invariant
of the data model) and in which at most one asset is selected, every
sequence of click-driven selection updates (left-click selection and
right-click context-menu selection) leaves at most one asset with
`selected = true`. -/
theorem c1_single_selection (assets : List CanvasAsset)
    (events : List SelectionEvent)
    (hids : (assets.map CanvasAsset.id).Nodup)
    (hsel : selectedCount assets ≤ 1) :
    selectedCount (runSelectionEvents assets events) ≤ 1 := by
  induction events generalizing assets with
  | nil => simpa [runSelectionEvents] using hsel
  | cons e es ih =>
    rw [runSelectionEvents, List.foldl_cons]
    have hstep : (applySelectionEvent assets e).map CanvasAsset.id =
          assets.map CanvasAsset.id ∧
        selectedCount (applySelectionEvent assets e) ≤ 1 := by
      cases e with
      | leftClick px py =>
        refine ⟨applySelection_map_id _ _, ?_⟩
        exact selectedCount_applySelection_le_one _ _ hids
      | rightClick px py =>
        rw [applySelectionEvent, handleContextMenuSelect]
        cases hitTest assets px py with
        | none => exact ⟨rfl, hsel⟩
        | some c =>
          refine ⟨applySelection_map_id _ _, ?_⟩
          exact selectedCount_applySelection_le_one _ _ hids
    exact ih (applySelectionEvent assets e) (hstep.1 ▸ hids) hstep.2

/-- A concrete asset used by witnesses: a 50 by 50 image at (10, 10). -/
def sampleAssetA : CanvasAsset :=
  { id := "img-1", src := "http://localhost:3001/a.png", type := "ai-image",
    x := 10, y := 10, width := 50, height := 50,
    selected := false, data := "", effects := none }

/-- A concrete asset used by witnesses: a 30 by 30 logo at (100, 100). -/
def sampleAssetB : CanvasAsset :=
  { id := "logo-2", src := "http://localhost:3001/b.png", type := "title-logo",
    x := 100, y := 100, width := 30, height := 30,
    selected := false, data := "", effects := none }

/-- Witness for claim C1 at a concrete scene of two assets and a
left click followed by a right click. -/
theorem c1_single_selection_witness :
    selectedCount (runSelectionEvents [sampleAssetA, sampleAssetB]
      [SelectionEvent.leftClick 20 20, SelectionEvent.rightClick 110 110]) ≤ 1 :=
  c1_single_selection [sampleAssetA, sampleAssetB]
    [SelectionEvent.leftClick 20 20, SelectionEvent.rightClick 110 110]
    (by decide) (by decide)

/-- The dragging branch of `handleMouseMove` applied to one asset: the
new origin is the pointer minus the recorded drag offset, clamped with
`Math.max(0, Math.min(display − size, ·))` on each axis.  Only `x` and
`y` are rewritten; every other field is spread from the old asset. -/
def dragMoveAsset (a : CanvasAsset) (canvasW canvasH px py offX offY : ℚ) :
    CanvasAsset :=
  { a with
    x := max 0 (min (canvasW - a.width) (px - offX)),
    y := max 0 (min (canvasH - a.height) (py - offY)) }

/-- The dragging branch of `handleMouseMove` over the whole asset list:
the clamped move is applied to the assets whose id equals the dragged
(selected) asset id; all other list entries are returned unchanged. -/
def dragMove (assets : List CanvasAsset) (selectedId : String)
    (canvasW canvasH px py offX offY : ℚ) : List CanvasAsset :=
  assets.map (fun a =>
    if a.id = selectedId then dragMoveAsset a canvasW canvasH px py offX offY
    else a)

/-- The four corner resize handles of the canvas. -/
inductive ResizeHandle where
  | tl
  | tr
  | bl
  | br
deriving Repr, DecidableEq

/-- Minimum absolute asset size enforced by the resize code
(`const minSize = 20`). -/
def minSize : ℚ := 20

/-- The raw scale factor the resizing branch of `handleMouseMove`
computes per handle from the pointer displacement `(dx, dy)` relative
to the combined initial snapshot dimensions `w0 + h0`. -/
def resizeScaleRaw (handle : ResizeHandle) (dx dy w0 h0 : ℚ) : ℚ :=
  match handle with
  | .tl => 1 - (|dx| + |dy|) / (w0 + h0)
  | .tr => 1 + (dx - dy) / (w0 + h0)
  | .bl => 1 + (-dx + dy) / (w0 + h0)
  | .br => 1 + (dx + dy) / (w0 + h0)

/-- The effective scale factor: the raw factor lower bounded by
`minSize / Math.max(initialWidth, initialHeight)` (the
`scaleFactor = Math.max(minSize / Math.max(w, h), scaleFactor)` line
repeated in each handle case of the source). -/
def resizeScale (handle : ResizeHandle) (dx dy w0 h0 : ℚ) : ℚ :=
  max (minSize / max w0 h0) (resizeScaleRaw handle dx dy w0 h0)

/-- The resizing branch of `handleMouseMove` applied to one asset:
both dimensions of the initial snapshot `init` are multiplied by the
common scale factor, the origin is anchored at the corner opposite the
dragged handle, and the resulting origin is clamped to the canvas with
`Math.max(0, Math.min(display − newSize, ·))` on each axis.  Fields
other than the geometry are spread from the current asset. -/
def resizeAsset (asset init : CanvasAsset) (handle : ResizeHandle)
    (dx dy canvasW canvasH : ℚ) : CanvasAsset :=
  let s := resizeScale handle dx dy init.width init.height
  let newWidth := init.width * s
  let newHeight := init.height * s
  let pos : ℚ × ℚ :=
    match handle with
    | .tl => (init.x + (init.width - newWidth), init.y + (init.height - newHeight))
    | .tr => (init.x, init.y + (init.height - newHeight))
    | .bl => (init.x + (init.width - newWidth), init.y)
    | .br => (init.x, init.y)
  { asset with
    width := newWidth,
    height := newHeight,
    x := max 0 (min (canvasW - newWidth) pos.1),
    y := max 0 (min (canvasH - newHeight) pos.2) }

/-- A 100 by 100 asset at the canvas origin, used for the bounds
counterexample. -/
def squareAsset : CanvasAsset :=
  { id := "sq", src := "http://localhost:3001/sq.png", type := "ai-image",
    x := 0, y := 0, width := 100, height := 100,
    selected := true, data := "", effects := none }

/-- Counterexample to claim C2 as stated: on a 200 by 200 canvas,
dragging the bottom-right handle of a 100 by 100 asset at the origin by
(200, 200) yields scale factor 3, so the resulting width is 300 and
`x + width = 300 > 200 = canvasWidth` even after the clamp (the clamp
`max 0 (min (canvasWidth − width) x)` only bounds the left edge once
the asset is wider than the canvas). -/
theorem c2_bounds_counterexample :
    ¬((resizeAsset squareAsset squareAsset ResizeHandle.br 200 200 200 200).x +
      (resizeAsset squareAsset squareAsset ResizeHandle.br 200 200 200 200).width ≤
      200) := by
  norm_num [resizeAsset, resizeScale, resizeScaleRaw, minSize, squareAsset]

theorem resizeScale_pos (handle : ResizeHandle) (dx dy w0 h0 : ℚ)
    (hw : 0 < w0) (_hh : 0 < h0) : 0 < resizeScale handle dx dy w0 h0 := by
  have hm : 0 < max w0 h0 := lt_max_of_lt_left hw
  have hfloor : 0 < minSize / max w0 h0 := div_pos (by norm_num [minSize]) hm
  exact lt_of_lt_of_le hfloor (le_max_left _ _)

theorem resizeAsset_width (asset init : CanvasAsset) (handle : ResizeHandle)
    (dx dy canvasW canvasH : ℚ) :
    (resizeAsset asset init handle dx dy canvasW canvasH).width =
      init.width * resizeScale handle dx dy init.width init.height := rfl

theorem resizeAsset_height (asset init : CanvasAsset) (handle : ResizeHandle)
    (dx dy canvasW canvasH : ℚ) :
    (resizeAsset asset init handle dx dy canvasW canvasH).height =
      init.height * resizeScale handle dx dy init.width init.height := rfl

theorem clamp_nonneg (t : ℚ) : 0 ≤ max 0 t := le_max_left 0 t

theorem clamp_le_limit (size limit t : ℚ) (h : size ≤ limit) :
    max 0 (min (limit - size) t) + size ≤ limit := by
  have h1 : max 0 (min (limit - size) t) ≤ limit - size :=
    max_le (by linarith) (min_le_left _ _)
  linarith

/-- Claim C2 amended: drag-move and corner-resize always leave the
asset origin at nonnegative coordinates, and they keep the right/bottom
edges inside the canvas whenever the (resulting) asset dimensions fit
inside the canvas; the right/bottom bound is not guaranteed when a
resize scales the asset beyond the canvas size, because the computed
scale factor has no upper bound (see the counterexample). -/
theorem c2_bounds_amended (asset init : CanvasAsset) (handle : ResizeHandle)
    (dx dy canvasW canvasH px py offX offY : ℚ) :
    (0 ≤ (dragMoveAsset asset canvasW canvasH px py offX offY).x ∧
     0 ≤ (dragMoveAsset asset canvasW canvasH px py offX offY).y ∧
     (dragMoveAsset asset canvasW canvasH px py offX offY).width = asset.width ∧
     (dragMoveAsset asset canvasW canvasH px py offX offY).height = asset.height ∧
     (asset.width ≤ canvasW →
       (dragMoveAsset asset canvasW canvasH px py offX offY).x +
         (dragMoveAsset asset canvasW canvasH px py offX offY).width ≤ canvasW) ∧
     (asset.height ≤ canvasH →
       (dragMoveAsset asset canvasW canvasH px py offX offY).y +
         (dragMoveAsset asset canvasW canvasH px py offX offY).height ≤ canvasH)) ∧
    (0 ≤ (resizeAsset asset init handle dx dy canvasW canvasH).x ∧
     0 ≤ (resizeAsset asset init handle dx dy canvasW canvasH).y ∧
     ((resizeAsset asset init handle dx dy canvasW canvasH).width ≤ canvasW →
       (resizeAsset asset init handle dx dy canvasW canvasH).x +
         (resizeAsset asset init handle dx dy canvasW canvasH).width ≤ canvasW) ∧
     ((resizeAsset asset init handle dx dy canvasW canvasH).height ≤ canvasH →
       (resizeAsset asset init handle dx dy canvasW canvasH).y +
         (resizeAsset asset init handle dx dy canvasW canvasH).height ≤ canvasH)) := by
  refine ⟨⟨le_max_left _ _, le_max_left _ _, rfl, rfl, ?_, ?_⟩,
    ⟨le_max_left _ _, le_max_left _ _, ?_, ?_⟩⟩
  · intro h
    exact clamp_le_limit asset.width canvasW (px - offX) h
  · intro h
    exact clamp_le_limit asset.height canvasH (py - offY) h
  · intro h
    exact clamp_le_limit _ canvasW _ h
  · intro h
    exact clamp_le_limit _ canvasH _ h

/-- Witness for the amended claim C2 at a concrete drag and a concrete
bottom-right resize of a 50 by 50 asset on a 200 by 200 canvas. -/
theorem c2_bounds_amended_witness :
    0 ≤ (dragMoveAsset sampleAssetA 200 200 30 30 5 5).x ∧
    (dragMoveAsset sampleAssetA 200 200 30 30 5 5).x +
      (dragMoveAsset sampleAssetA 200 200 30 30 5 5).width ≤ 200 ∧
    0 ≤ (resizeAsset sampleAssetA sampleAssetA ResizeHandle.br 5 5 200 200).x ∧
    (resizeAsset sampleAssetA sampleAssetA ResizeHandle.br 5 5 200 200).x +
      (resizeAsset sampleAssetA sampleAssetA ResizeHandle.br 5 5 200 200).width ≤
      200 := by
  have h := c2_bounds_amended sampleAssetA sampleAssetA ResizeHandle.br
    5 5 200 200 30 30 5 5
  refine ⟨h.1.1, h.1.2.2.2.2.1 (by norm_num [sampleAssetA]), h.2.1,
    h.2.2.2.1 ?_⟩
  norm_num [resizeAsset_width, resizeScale, resizeScaleRaw, minSize, sampleAssetA]

/-- Claim C4: aspect-ratio preservation.  For every corner resize with
positive initial snapshot dimensions, the resulting height is nonzero
and the resulting width/height ratio equals the initial ratio exactly
(both dimensions are multiplied by the same positive scale factor, also
when the minimum-size lower bound on the factor is active). -/
theorem c4_aspect_preservation (asset init : CanvasAsset)
    (handle : ResizeHandle) (dx dy canvasW canvasH : ℚ)
    (hw : 0 < init.width) (hh : 0 < init.height) :
    (resizeAsset asset init handle dx dy canvasW canvasH).height ≠ 0 ∧
    (resizeAsset asset init handle dx dy canvasW canvasH).width /
      (resizeAsset asset init handle dx dy canvasW canvasH).height =
      init.width / init.height := by
  have hs : 0 < resizeScale handle dx dy init.width init.height :=
    resizeScale_pos handle dx dy init.width init.height hw hh
  rw [resizeAsset_width, resizeAsset_height]
  constructor
  · exact (mul_pos hh hs).ne'
  · rw [mul_div_mul_right _ _ hs.ne']

/-- Witness for claim C4 at a concrete top-left resize of a 50 by 50
asset. -/
theorem c4_aspect_preservation_witness :
    (resizeAsset sampleAssetA sampleAssetA ResizeHandle.tl 40 10 200 200).height ≠ 0 ∧
    (resizeAsset sampleAssetA sampleAssetA ResizeHandle.tl 40 10 200 200).width /
      (resizeAsset sampleAssetA sampleAssetA ResizeHandle.tl 40 10 200 200).height =
      sampleAssetA.width / sampleAssetA.height :=
  c4_aspect_preservation sampleAssetA sampleAssetA ResizeHandle.tl 40 10 200 200
    (by norm_num [sampleAssetA]) (by norm_num [sampleAssetA])

/-- A 20 by 100 asset (narrower than the 20 px minimum floor allows the
scale factor to protect), used for the minimum-size counterexample. -/
def tallAsset : CanvasAsset :=
  { id := "tall", src := "http://localhost:3001/t.png", type := "tagline",
    x := 0, y := 0, width := 20, height := 100,
    selected := true, data := "", effects := none }

/-- Counterexample to claim C5 as stated: resizing a 20 by 100 asset
from the top-left handle with displacement (−120, 0) drives the raw
scale factor to 0; the lower bound is `20 / max(20, 100) = 1/5`, so the
resulting width is `20 · 1/5 = 4 < 20`.  The floor only protects the
larger of the two dimensions. -/
theorem c5_min_size_counterexample :
    ¬(minSize ≤
      (resizeAsset tallAsset tallAsset ResizeHandle.tl (-120) 0 1000 1000).width) := by
  norm_num [resizeAsset, resizeScale, resizeScaleRaw, minSize, tallAsset]

/-- Claim C5 amended: for every corner resize with positive initial
snapshot dimensions, the larger of the resulting width and height is at
least the 20 px minimum, enforced by lower-bounding the scale factor by
`minSize / max(initialWidth, initialHeight)`; the smaller dimension can
end up below 20 px (see the counterexample). -/
theorem c5_min_size_amended (asset init : CanvasAsset)
    (handle : ResizeHandle) (dx dy canvasW canvasH : ℚ)
    (hw : 0 < init.width) (hh : 0 < init.height) :
    minSize ≤
      max (resizeAsset asset init handle dx dy canvasW canvasH).width
        (resizeAsset asset init handle dx dy canvasW canvasH).height := by
  have hm : 0 < max init.width init.height := lt_max_of_lt_left hw
  have hs : 0 < resizeScale handle dx dy init.width init.height :=
    resizeScale_pos handle dx dy init.width init.height hw hh
  have hfloor : minSize / max init.width init.height ≤
      resizeScale handle dx dy init.width init.height := le_max_left _ _
  rw [resizeAsset_width, resizeAsset_height,
    ← max_mul_of_nonneg init.width init.height hs.le]
  calc minSize
      = (minSize / max init.width init.height) * max init.width init.height := by
        field_simp
    _ ≤ resizeScale handle dx dy init.width init.height *
          max init.width init.height :=
        mul_le_mul_of_nonneg_right hfloor hm.le
    _ = max init.width init.height *
          resizeScale handle dx dy init.width init.height := mul_comm _ _

/-- Witness for the amended claim C5 at the concrete 20 by 100 asset of
the counterexample: the larger resulting dimension stays at least 20. -/
theorem c5_min_size_amended_witness :
    minSize ≤
      max (resizeAsset tallAsset tallAsset ResizeHandle.tl (-120) 0 1000 1000).width
        (resizeAsset tallAsset tallAsset ResizeHandle.tl (-120) 0 1000 1000).height :=
  c5_min_size_amended tallAsset tallAsset ResizeHandle.tl (-120) 0 1000 1000
    (by norm_num [tallAsset]) (by norm_num [tallAsset])

/-- Claim C10: drag-move frame property.  A drag-move event preserves
the list length and pairs every original asset with its updated version
such that id, width, height, effects and the selected flag are
unchanged; an asset whose id differs from the dragged (selected) asset
id is returned entirely unchanged.  Only the x and y fields of the
matching asset are rewritten. -/
theorem c10_drag_move_frame (assets : List CanvasAsset) (selectedId : String)
    (canvasW canvasH px py offX offY : ℚ) :
    (dragMove assets selectedId canvasW canvasH px py offX offY).length =
      assets.length ∧
    List.Forall₂ (fun a b =>
        b.id = a.id ∧ b.src = a.src ∧ b.type = a.type ∧
        b.width = a.width ∧ b.height = a.height ∧
        b.data = a.data ∧ b.effects = a.effects ∧ b.selected = a.selected ∧
        (a.id ≠ selectedId → b = a))
      assets (dragMove assets selectedId canvasW canvasH px py offX offY) := by
  constructor
  · simp [dragMove]
  · induction assets with
    | nil => simp [dragMove]
    | cons a t ih =>
      rw [dragMove, List.map_cons]
      refine List.Forall₂.cons ?_ ih
      by_cases hid : a.id = selectedId
      · rw [if_pos hid]
        exact ⟨rfl, rfl, rfl, rfl, rfl, rfl, rfl, rfl,
          fun hne => absurd hid hne⟩
      · rw [if_neg hid]
        exact ⟨rfl, rfl, rfl, rfl, rfl, rfl, rfl, rfl, fun _ => rfl⟩

/-- Witness for claim C10 at a concrete two-asset scene with the first
asset dragged. -/
theorem c10_drag_move_frame_witness :
    (dragMove [sampleAssetA, sampleAssetB] "img-1" 200 200 30 30 5 5).length =
      ([sampleAssetA, sampleAssetB] : List CanvasAsset).length ∧
    List.Forall₂ (fun a b =>
        b.id = a.id ∧ b.src = a.src ∧ b.type = a.type ∧
        b.width = a.width ∧ b.height = a.height ∧
        b.data = a.data ∧ b.effects = a.effects ∧ b.selected = a.selected ∧
        (a.id ≠ "img-1" → b = a))
      [sampleAssetA, sampleAssetB]
      (dragMove [sampleAssetA, sampleAssetB] "img-1" 200 200 30 30 5 5) :=
  c10_drag_move_frame [sampleAssetA, sampleAssetB] "img-1" 200 200 30 30 5 5

/-- The undo/redo state of PosterGenerationPage: the current canvas
asset list, the snapshot history, and the current history index
(a JS number initialised to −1, hence an integer here). -/
structure PageHistoryState where
  canvasAssets : List CanvasAsset
  history : List (List CanvasAsset)
  historyIndex : Int
deriving Repr, DecidableEq

/-- The structural fingerprint the history-tracking effect of
PosterGenerationPage takes of one asset before comparing states:
`{ id, effects, x, y, width, height }` (selection and source fields are
excluded). -/
def snapKey (a : CanvasAsset) : String × Option String × ℚ × ℚ × ℚ × ℚ :=
  (a.id, a.effects, a.x, a.y, a.width, a.height)

/-- The fingerprint of a whole asset list (the JSON string the source
builds is injective on this tuple list, so the tuple list itself stands
in for it). -/
def stateHash (assets : List CanvasAsset) :
    List (String × Option String × ℚ × ℚ × ℚ × ℚ) :=
  assets.map snapKey

/-- `addToHistory` of PosterGenerationPage: truncate the history after
the current index (`history.slice(0, historyIndex + 1)`), append a deep
copy of the asset list (deep copy is the identity on these pure
values), and point the index at the new last entry. -/
def addToHistory (s : PageHistoryState) (assets : List CanvasAsset) :
    PageHistoryState :=
  let newHistory := s.history.take (s.historyIndex + 1).toNat ++ [assets]
  { s with history := newHistory,
           historyIndex := (newHistory.length : Int) - 1 }

/-- The `history[historyIndex]` lookup of the history-tracking effect:
`none` models the JS `undefined` produced by a negative or
out-of-range index. -/
def historyAt (s : PageHistoryState) : Option (List CanvasAsset) :=
  if 0 ≤ s.historyIndex then s.history.get? s.historyIndex.toNat else none

/-- The changed-state test of the history-tracking effect: the current
fingerprint differs from the fingerprint of the entry at the current
index (when that entry is `undefined` the recorded string is empty, so
any current state counts as changed). -/
def stateChanged (s : PageHistoryState) : Bool :=
  match historyAt s with
  | some snap => decide (stateHash s.canvasAssets ≠ stateHash snap)
  | none => true

/-- The history-tracking `useEffect` of PosterGenerationPage: when the
canvas is nonempty (or the history still empty) and the state
fingerprint changed, push the current asset list. -/
def syncHistory (s : PageHistoryState) : PageHistoryState :=
  if (0 < s.canvasAssets.length ∨ s.history.length = 0) ∧ stateChanged s then
    addToHistory s s.canvasAssets
  else s

/-- A canvas mutation followed by the history-tracking effect: replace
the asset list by `op` of it and run `syncHistory`. -/
def applyMutation (op : List CanvasAsset → List CanvasAsset)
    (s : PageHistoryState) : PageHistoryState :=
  syncHistory { s with canvasAssets := op s.canvasAssets }

/-- `handleUndo` of PosterGenerationPage: when `historyIndex > 0`, step
the index back and restore the snapshot at the new index (a deep copy
in the source, the identity here); otherwise do nothing. -/
def handleUndo (s : PageHistoryState) : PageHistoryState :=
  if 0 < s.historyIndex then
    { s with historyIndex := s.historyIndex - 1,
             canvasAssets := ((s.history.get? (s.historyIndex - 1).toNat).getD []) }
  else s

/-- `handleRedo` of PosterGenerationPage: when
`historyIndex < history.length − 1`, step the index forward and restore
the snapshot at the new index; otherwise do nothing. -/
def handleRedo (s : PageHistoryState) : PageHistoryState :=
  if s.historyIndex < (s.history.length : Int) - 1 then
    { s with historyIndex := s.historyIndex + 1,
             canvasAssets := ((s.history.get? (s.historyIndex + 1).toNat).getD []) }
  else s

theorem handleUndo_mk (a : List CanvasAsset) (H : List (List CanvasAsset))
    (i : Int) (hi : 0 < i) :
    handleUndo ⟨a, H, i⟩ = ⟨(H.get? (i - 1).toNat).getD [], H, i - 1⟩ := by
  unfold handleUndo
  rw [if_pos hi]

theorem handleRedo_mk (a : List CanvasAsset) (H : List (List CanvasAsset))
    (i : Int) (hi : i < (H.length : Int) - 1) :
    handleRedo ⟨a, H, i⟩ = ⟨(H.get? (i + 1).toNat).getD [], H, i + 1⟩ := by
  unfold handleRedo
  rw [if_pos hi]

/-- Claim C3: undo/redo round trip.  Take a page state that is in sync
with its history (index at the last entry, last snapshot equal to the
current asset list, as after any recorded mutation) and a mutation `op`
that is actually recorded (its fingerprint differs from the current one
and the resulting canvas is nonempty, so the history effect pushes it).
Then `handleUndo` restores the snapshot that immediately preceded the
mutation, and `handleRedo` right after that undo restores the exact
post-mutation state. -/
theorem c3_undo_redo_round_trip (s : PageHistoryState)
    (op : List CanvasAsset → List CanvasAsset)
    (hsync : s.historyIndex = (s.history.length : Int) - 1)
    (htop : s.history.getLast? = some s.canvasAssets)
    (hchanged : stateHash (op s.canvasAssets) ≠ stateHash s.canvasAssets)
    (hne : op s.canvasAssets ≠ []) :
    (handleUndo (applyMutation op s)).canvasAssets = s.canvasAssets ∧
    handleRedo (handleUndo (applyMutation op s)) = applyMutation op s := by
  obtain ⟨a0, H0, i0⟩ := s
  simp only at hsync htop hchanged hne
  subst hsync
  have hlen : 1 ≤ H0.length := by
    cases hH : H0 with
    | nil => rw [hH] at htop; simp at htop
    | cons h t => simp [hH]
  have htopget : H0.get? (H0.length - 1) = some a0 := by
    rw [List.get?_eq_getElem?, ← List.getLast?_eq_getElem?]
    exact htop
  have h_at : historyAt ⟨op a0, H0, (H0.length : Int) - 1⟩ = some a0 := by
    unfold historyAt
    dsimp only
    rw [if_pos (by omega),
      show ((H0.length : Int) - 1).toNat = H0.length - 1 from by omega]
    exact htopget
  have h_changed : stateChanged ⟨op a0, H0, (H0.length : Int) - 1⟩ = true := by
    unfold stateChanged
    rw [h_at]
    simpa using hchanged
  have hA : applyMutation op ⟨a0, H0, (H0.length : Int) - 1⟩ =
      ⟨op a0, H0 ++ [op a0], (H0.length : Int)⟩ := by
    unfold applyMutation syncHistory
    dsimp only
    rw [if_pos ⟨Or.inl (List.length_pos.mpr hne), by rw [h_changed]⟩]
    unfold addToHistory
    dsimp only
    rw [show ((H0.length : Int) - 1 + 1).toNat = H0.length from by omega,
      List.take_length]
    simp only [PageHistoryState.mk.injEq, List.length_append,
      List.length_singleton]
    refine ⟨trivial, trivial, by push_cast; omega⟩
  rw [hA, handleUndo_mk _ _ _ (by omega)]
  have hget1 : ((H0 ++ [op a0]).get?
      ((H0.length : Int) - 1).toNat).getD [] = a0 := by
    rw [show ((H0.length : Int) - 1).toNat = H0.length - 1 from by omega]
    rw [List.get?_append (by omega), htopget]
    rfl
  rw [hget1]
  constructor
  · rfl
  · rw [handleRedo_mk _ _ _ (by
      simp only [List.length_append, List.length_singleton]
      push_cast
      omega)]
    have hget2 : ((H0 ++ [op a0]).get?
        ((H0.length : Int) - 1 + 1).toNat).getD [] = op a0 := by
      rw [show ((H0.length : Int) - 1 + 1).toNat = H0.length from by omega]
      rw [List.get?_concat_length]
      rfl
    rw [hget2]
    simp only [PageHistoryState.mk.injEq]
    refine ⟨trivial, trivial, by omega⟩

/-- Witness for claim C3: a one-snapshot history in sync with a
one-asset canvas, mutated by an operation that replaces the asset. -/
theorem c3_undo_redo_round_trip_witness :
    (handleUndo (applyMutation (fun _ => [sampleAssetB])
        ⟨[sampleAssetA], [[sampleAssetA]], 0⟩)).canvasAssets =
      [sampleAssetA] ∧
    handleRedo (handleUndo (applyMutation (fun _ => [sampleAssetB])
        ⟨[sampleAssetA], [[sampleAssetA]], 0⟩)) =
      applyMutation (fun _ => [sampleAssetB])
        ⟨[sampleAssetA], [[sampleAssetA]], 0⟩ :=
  c3_undo_redo_round_trip ⟨[sampleAssetA], [[sampleAssetA]], 0⟩
    (fun _ => [sampleAssetB]) (by decide) (by decide) (by decide) (by decide)

/-- Mirror of the `ColorStop` interface of AdvancedGradientControls. -/
structure ColorStop where
  id : String
  color : String
  position : ℚ
deriving Repr, DecidableEq

/-- Mirror of the `GradientArea` interface: a user-drawn rectangle in
preview-viewport coordinates. -/
structure GradientArea where
  startX : ℚ
  startY : ℚ
  endX : ℚ
  endY : ℚ
deriving Repr, DecidableEq

/-- Mirror of the `AdvancedGradientConfig` interface of
AdvancedGradientControls (the preview dimensions are an optional width
and height pair). -/
structure AdvancedGradientConfig where
  type : String
  colorStops : List ColorStop
  area : Option GradientArea
  angle : ℚ
  size : ℚ
  feather : ℚ
  opacity : ℚ
  blendMode : String
  previewDimensions : Option (ℚ × ℚ)
deriving Repr, DecidableEq

/-- `deleteColorStop` of AdvancedGradientControls: with 2 or fewer
stops the delete is rejected (the source shows the toast
"Gradient must have at least 2 color stops" and returns, the config
untouched); otherwise the stops whose id equals the given id are
filtered out.  The boolean result records whether the rejection
notification fired. -/
def deleteColorStop (config : AdvancedGradientConfig) (stopId : String) :
    AdvancedGradientConfig × Bool :=
  if config.colorStops.length ≤ 2 then (config, true)
  else
    ({ config with
       colorStops := config.colorStops.filter (fun s => !(s.id == stopId)) },
     false)

theorem length_filter_ne_key {α β : Type} [DecidableEq β] (key : α → β)
    (b : β) : ∀ l : List α, (l.map key).Nodup →
      l.length - 1 ≤ (l.filter (fun s => !(key s == b))).length := by
  intro l
  induction l with
  | nil => intro _; simp
  | cons x xs ih =>
    intro hnd
    rw [List.map_cons, List.nodup_cons] at hnd
    by_cases hx : key x = b
    · have hall : xs.filter (fun s => !(key s == b)) = xs := by
        rw [List.filter_eq_self]
        intro a ha
        simp only [Bool.not_eq_true', beq_eq_false_iff_ne, ne_eq]
        intro hab
        exact hnd.1 (hx ▸ hab ▸ List.mem_map_of_mem key ha)
      rw [List.filter_cons_of_neg (by simp [hx])]
      rw [hall]
      simp
    · rw [List.filter_cons_of_pos (by simp [hx])]
      have := ih hnd.2
      simp only [List.length_cons]
      omega

/-- Claim C6: gradient stop floor.  For a configuration whose stop ids
are pairwise distinct (ids are generated from timestamps precisely to
keep them unique) and which satisfies the documented invariant of at
least 2 stops, deleting a stop never leaves fewer than 2 stops; and
when exactly 2 stops are present the delete is rejected with the
notification and the configuration is returned unchanged in every
field. -/
theorem c6_gradient_stop_floor (config : AdvancedGradientConfig)
    (stopId : String)
    (hids : (config.colorStops.map ColorStop.id).Nodup)
    (hlen : 2 ≤ config.colorStops.length) :
    2 ≤ (deleteColorStop config stopId).1.colorStops.length ∧
    (config.colorStops.length = 2 →
      deleteColorStop config stopId = (config, true)) := by
  constructor
  · by_cases h : config.colorStops.length ≤ 2
    · rw [deleteColorStop, if_pos h]
      exact hlen
    · rw [deleteColorStop, if_neg h]
      have hfl := length_filter_ne_key ColorStop.id stopId
        config.colorStops hids
      dsimp only
      omega
  · intro h2
    rw [deleteColorStop, if_pos (by omega)]

/-- The default two color stops AdvancedGradientControls starts with. -/
def defaultColorStops : List ColorStop :=
  [{ id := "1", color := "#000000", position := 0 },
   { id := "2", color := "rgba(0,0,0,0)", position := 100 }]

/-- The initial advanced gradient configuration of
AdvancedGradientControls. -/
def defaultAdvancedGradientConfig : AdvancedGradientConfig :=
  { type := "linear", colorStops := defaultColorStops, area := none,
    angle := 0, size := 100, feather := 0, opacity := 100,
    blendMode := "normal", previewDimensions := none }

/-- Witness for claim C6 at the default configuration with exactly two
stops: the delete of stop "1" is rejected and the stop count stays 2. -/
theorem c6_gradient_stop_floor_witness :
    2 ≤ (deleteColorStop defaultAdvancedGradientConfig "1").1.colorStops.length ∧
    (defaultAdvancedGradientConfig.colorStops.length = 2 →
      deleteColorStop defaultAdvancedGradientConfig "1" =
        (defaultAdvancedGradientConfig, true)) :=
  c6_gradient_stop_floor defaultAdvancedGradientConfig "1"
    (by decide) (by decide)

/-- Fold of `Math.min` over a list, seeded with a first value (the
source seeds with `Infinity`; for the nonempty lists that reach the
fold this is the same as seeding with the first element). -/
def qListMin (x0 : ℚ) (l : List ℚ) : ℚ := l.foldl min x0

/-- Fold of `Math.max` over a list, seeded with a first value (the
source seeds with `-Infinity`). -/
def qListMax (x0 : ℚ) (l : List ℚ) : ℚ := l.foldl max x0

/-- The geometry of the export surface `createCleanCanvas` builds: its
CSS-pixel dimensions (the bitmap is this times the device pixel ratio)
and, per asset, the id and destination rectangle of its draw call. -/
structure ExportGeometry where
  width : ℚ
  height : ℚ
  draws : List (String × ℚ × ℚ × ℚ × ℚ)
deriving Repr, DecidableEq

/-- The geometry computation of `createCleanCanvas` in PosterSaveModal:
reject an empty asset list with the `No assets to save` error;
otherwise compute the bounding box over all assets, clamp its origin at
0 with zero padding (`padding = 0`, tight crop), size the output to the
box, and draw every asset at its position offset by the box origin. -/
def createCleanCanvas (assets : List CanvasAsset) :
    Except String ExportGeometry :=
  match assets with
  | [] => Except.error "No assets to save"
  | a :: rest =>
    let minX0 := qListMin a.x (rest.map (fun b => b.x))
    let minY0 := qListMin a.y (rest.map (fun b => b.y))
    let maxX0 := qListMax (a.x + a.width) (rest.map (fun b => b.x + b.width))
    let maxY0 := qListMax (a.y + a.height) (rest.map (fun b => b.y + b.height))
    let padding : ℚ := 0
    let minX := max 0 (minX0 - padding)
    let minY := max 0 (minY0 - padding)
    let maxX := maxX0 + padding
    let maxY := maxY0 + padding
    Except.ok
      { width := maxX - minX,
        height := maxY - minY,
        draws := (a :: rest).map (fun b =>
          (b.id, b.x - minX, b.y - minY, b.width, b.height)) }

theorem qListMin_nonneg (x0 : ℚ) (l : List ℚ) (h0 : 0 ≤ x0)
    (hl : ∀ q ∈ l, 0 ≤ q) : 0 ≤ qListMin x0 l := by
  induction l generalizing x0 with
  | nil => exact h0
  | cons q t ih =>
    show 0 ≤ qListMin (min x0 q) t
    exact ih (min x0 q) (le_min h0 (hl q (by simp)))
      (fun r hr => hl r (by simp [hr]))

/-- Claim C7: export bounding box.  For a nonempty asset list whose
positions are nonnegative (as the canvas clamps guarantee), the export
geometry is exactly the axis-aligned bounding box of the assets with no
padding: the output dimensions are the box extents and every asset is
drawn at its position offset by the box origin. -/
theorem c7_export_bbox (a : CanvasAsset) (rest : List CanvasAsset)
    (hpos : ∀ b ∈ a :: rest, 0 ≤ b.x ∧ 0 ≤ b.y) :
    createCleanCanvas (a :: rest) = Except.ok
      { width := qListMax (a.x + a.width) (rest.map (fun b => b.x + b.width)) -
          qListMin a.x (rest.map (fun b => b.x)),
        height :=
          qListMax (a.y + a.height) (rest.map (fun b => b.y + b.height)) -
            qListMin a.y (rest.map (fun b => b.y)),
        draws := (a :: rest).map (fun b =>
          (b.id, b.x - qListMin a.x (rest.map (fun c => c.x)),
           b.y - qListMin a.y (rest.map (fun c => c.y)),
           b.width, b.height)) } := by
  have hminx : 0 ≤ qListMin a.x (rest.map (fun b => b.x)) := by
    refine qListMin_nonneg _ _ (hpos a (by simp)).1 ?_
    intro q hq
    obtain ⟨b, hb, rfl⟩ := List.mem_map.mp hq
    exact (hpos b (by simp [hb])).1
  have hminy : 0 ≤ qListMin a.y (rest.map (fun b => b.y)) := by
    refine qListMin_nonneg _ _ (hpos a (by simp)).2 ?_
    intro q hq
    obtain ⟨b, hb, rfl⟩ := List.mem_map.mp hq
    exact (hpos b (by simp [hb])).2
  simp only [createCleanCanvas, sub_zero, add_zero,
    max_eq_right hminx, max_eq_right hminy]

/-- Witness for claim C7 at the concrete scene of the specification:
assets at (10,10,50,50) and (100,100,30,30) export to a 120 by 120
surface with the first asset drawn at local (0,0). -/
theorem c7_export_bbox_witness :
    createCleanCanvas [sampleAssetA, sampleAssetB] = Except.ok
      { width := 120, height := 120,
        draws := [("img-1", 0, 0, 50, 50), ("logo-2", 90, 90, 30, 30)] } := by
  rw [c7_export_bbox sampleAssetA [sampleAssetB]
    (by intro b hb; fin_cases hb <;> norm_num [sampleAssetA, sampleAssetB])]
  norm_num [qListMin, qListMax, min_def, max_def, sampleAssetA, sampleAssetB]

/-- Claim C8: empty-canvas export is rejected.  With zero placed assets
`createCleanCanvas` rejects the export with the `No assets to save`
error and produces no geometry (the error alternative of the result
carries no output). -/
theorem c8_empty_export_rejected :
    createCleanCanvas [] = Except.error "No assets to save" := rfl

/-- The `advGrad.previewDimensions?.width || 400` fallback of
`drawCanvas`: missing dimensions (or a falsy zero width) default to the
400 px preview width. -/
def previewWidthOr (pd : Option (ℚ × ℚ)) : ℚ :=
  match pd with
  | some d => if d.1 = 0 then 400 else d.1
  | none => 400

/-- The `advGrad.previewDimensions?.height || 240` fallback of
`drawCanvas`. -/
def previewHeightOr (pd : Option (ℚ × ℚ)) : ℚ :=
  match pd with
  | some d => if d.2 = 0 then 240 else d.2
  | none => 240

/-- The linear-gradient geometry of the advanced-gradient branch of
`drawCanvas` when an `area` is present: the area corners are remapped
from preview space to asset-pixel space with independent X and Y scale
factors `asset.width / previewWidth` and `asset.height / previewHeight`
and shifted into the asset-centered frame (the context is translated to
the asset center), giving the `createLinearGradient` arguments
(startX, startY, endX, endY). -/
def advLinearGradientCoords (area : GradientArea) (pd : Option (ℚ × ℚ))
    (assetW assetH : ℚ) : ℚ × ℚ × ℚ × ℚ :=
  let scaleX := assetW / previewWidthOr pd
  let scaleY := assetH / previewHeightOr pd
  (area.startX * scaleX - assetW / 2,
   area.startY * scaleY - assetH / 2,
   area.endX * scaleX - assetW / 2,
   area.endY * scaleY - assetH / 2)

/-- Claim C9: advanced gradient area remap.  For an area captured at
preview dimensions 400 by 240 with startX = 100, rendered on an asset
of actual width 800, the local x start coordinate of the gradient is
`100 * (800 / 400) - 800 / 2 = -200` in the asset-centered frame. -/
theorem c9_adv_gradient_remap :
    (advLinearGradientCoords
        { startX := 100, startY := 50, endX := 300, endY := 200 }
        (some (400, 240)) 800 600).1 =
      100 * (800 / 400) - 800 / 2 ∧
    100 * (800 / 400) - 800 / 2 = (-200 : ℚ) := by
  constructor
  · norm_num [advLinearGradientCoords, previewWidthOr]
  · norm_num
